import Mathlib

/-!
Shallow embedding of the ToDO-App server (src/server.js): JavaScript value
semantics (truthiness, loose and strict equality), the validation and
authentication middleware, the JSON-file record store, and the route
handlers for register, login and the task CRUD operations.
-/

namespace ToDoApp

/-- JavaScript primitive values as they occur in JSON request bodies and in
the stored records: numbers (modelled as integers, the only numbers this
server produces), strings, booleans, null, and undefined (the result of
reading an absent property). -/
inductive JSValue where
  | num (n : Int)
  | str (s : String)
  | bool (b : Bool)
  | null
  | undef
deriving DecidableEq

/-- JavaScript truthiness. A bang applied to a value in the validators is
the negation of this predicate: falsy values are 0, the empty string,
false, null and undefined. -/
def truthy : JSValue → Bool
  | .num n => n != 0
  | .str s => s != ""
  | .bool b => b
  | .null => false
  | .undef => false

/-- JavaScript strict equality (triple equals) on the value subset of this
model: never true across types, structural within a type. -/
def jsStrictEq : JSValue → JSValue → Bool
  | .num a, .num b => a == b
  | .str a, .str b => a == b
  | .bool a, .bool b => a == b
  | .null, .null => true
  | .undef, .undef => true
  | _, _ => false

/-- Whitespace as trimmed by the JavaScript ToNumber conversion. -/
def isJsSpace (c : Char) : Bool :=
  c == ' ' || c == '\t' || c == '\n' || c == '\r'

/-- Accumulating decimal parser for a run of digit characters; fails on the
first non-digit. -/
def parseDigitsAux : List Char → Nat → Option Nat
  | [], acc => some acc
  | c :: cs, acc =>
    if c.isDigit then parseDigitsAux cs (acc * 10 + (c.toNat - 48)) else none

/-- The fragment of the JavaScript ToNumber conversion on strings that this
server can reach: surrounding whitespace is ignored, the empty string
converts to 0, an optional minus sign followed by decimal digits converts
to the written integer, and every other string converts to NaN, modelled
as none. The task ids this server compares against are decimal renderings
of timestamps, which this fragment covers exactly. -/
def strToNumJS (s : String) : Option Int :=
  let cs := ((s.data.dropWhile isJsSpace).reverse.dropWhile isJsSpace).reverse
  match cs with
  | [] => some 0
  | '-' :: ds =>
    match ds with
    | [] => none
    | _ => (parseDigitsAux ds 0).map (fun n => -(n : Int))
  | ds => (parseDigitsAux ds 0).map (fun n => (n : Int))

/-- JavaScript ToNumber on the values of this model; none stands for NaN. -/
def jsToNumber : JSValue → Option Int
  | .num n => some n
  | .str s => strToNumJS s
  | .bool b => some (if b then 1 else 0)
  | .null => some 0
  | .undef => none

/-- JavaScript loose equality (double equals) on the values of this model:
null and undefined are loosely equal to each other and to nothing else, a
boolean is first converted to a number, a number compared with a string
converts the string with ToNumber, and a NaN conversion makes the
comparison false. -/
def jsEq : JSValue → JSValue → Bool
  | .num a, .num b => a == b
  | .str a, .str b => a == b
  | .bool a, .bool b => a == b
  | .null, .null => true
  | .undef, .undef => true
  | .null, .undef => true
  | .undef, .null => true
  | .null, _ => false
  | _, .null => false
  | .undef, _ => false
  | _, .undef => false
  | .bool a, v =>
    match jsToNumber v with
    | some m => ((if a then (1 : Int) else 0) == m)
    | none => false
  | v, .bool b =>
    match jsToNumber v with
    | some m => (m == (if b then (1 : Int) else 0))
    | none => false
  | .num n, .str s =>
    match strToNumJS s with
    | some m => n == m
    | none => false
  | .str s, .num n =>
    match strToNumJS s with
    | some m => m == n
    | none => false

/-- Reading a possibly-absent property of a JSON request body, as
JavaScript destructuring does: an absent field reads as undefined. -/
def jsGet : Option JSValue → JSValue
  | none => .undef
  | some v => v

/-- A stored user record, the shape pushed by the register handler. -/
structure User where
  name : JSValue
  email : JSValue
  password : JSValue
  phone : JSValue
  age : JSValue
  address : JSValue
deriving DecidableEq

/-- A stored task record, the shape pushed by the create-task handler. -/
structure Task where
  id : JSValue
  email : JSValue
  title : JSValue
  content : JSValue
  category : JSValue
  priority : JSValue
  tags : JSValue
  status : JSValue
  date : JSValue
deriving DecidableEq

/-- A registration request body: each known field is present with a JSON
value or absent. -/
structure RegisterBody where
  name : Option JSValue
  email : Option JSValue
  password : Option JSValue
  phone : Option JSValue
  age : Option JSValue
  address : Option JSValue
deriving DecidableEq

/-- A task request body: the seven validated fields plus the id and email
keys a client may also send, each present with a JSON value or absent. -/
structure TaskBody where
  id : Option JSValue
  email : Option JSValue
  title : Option JSValue
  content : Option JSValue
  category : Option JSValue
  priority : Option JSValue
  tags : Option JSValue
  status : Option JSValue
  date : Option JSValue
deriving DecidableEq

/-- One entry of the errors object: the message under the field name when
the destructured field value is falsy, nothing otherwise. -/
def reqErr (present : Bool) (field msg : String) : List (String × String) :=
  if !present then [(field, msg)] else []

/-- The validateRegistration middleware (server.js line 29): one message
per required field whose value is falsy, in source order. -/
def validateRegistration (b : RegisterBody) : List (String × String) :=
  reqErr (truthy (jsGet b.name)) "name" "Name is required" ++
  reqErr (truthy (jsGet b.email)) "email" "Email is required" ++
  reqErr (truthy (jsGet b.password)) "password" "Password is required" ++
  reqErr (truthy (jsGet b.phone)) "phone" "Phone number is required" ++
  reqErr (truthy (jsGet b.age)) "age" "Age is required" ++
  reqErr (truthy (jsGet b.address)) "address" "Address is required"

/-- The validateTask middleware (server.js line 45). -/
def validateTask (b : TaskBody) : List (String × String) :=
  reqErr (truthy (jsGet b.title)) "title" "Title is required" ++
  reqErr (truthy (jsGet b.content)) "content" "Content is required" ++
  reqErr (truthy (jsGet b.category)) "category" "Category is required" ++
  reqErr (truthy (jsGet b.priority)) "priority" "Priority is required" ++
  reqErr (truthy (jsGet b.tags)) "tags" "Tags are required" ++
  reqErr (truthy (jsGet b.status)) "status" "Status is required" ++
  reqErr (truthy (jsGet b.date)) "date" "Date is required"

/-- Modelled from the spec: the bcrypt hashing primitive (Credential
Manager, spec section 4.2) is an external library, not part of src. It is
modelled as an injective tagged copy of the password, which realizes
exactly the contract the spec states for it: verification succeeds
precisely on the hashed password; one-wayness is outside this model. -/
def bcryptHash (password : String) : String := "$2b$10$" ++ password

/-- Modelled from the spec: verification of a plaintext against a digest
is true exactly when the digest is the hash of the plaintext, and it never
throws for a well-formed digest. -/
def bcryptCompare (password digest : String) : Bool := digest == bcryptHash password

/-- The comparison as called from the login handler, where both arguments
are arbitrary JSON values; per the spec contract it is false on any
mismatch, in particular on non-string input. -/
def bcryptCompareJS (password digest : JSValue) : Bool :=
  match password, digest with
  | .str p, .str d => bcryptCompare p d
  | _, _ => false

/-- Modelled from the spec: a signed identity token as issued by the token
signer, carrying the email claim, the issue and expiry timestamps in
seconds, and the signature, modelled as the signing secret (a perfect
message authenticator). The external token library is not part of src. -/
structure JwtToken where
  email : JSValue
  iat : Nat
  exp : Nat
  sig : String
deriving DecidableEq

/-- Token signing with a 12-hour lifetime: 12 hours is 43200 seconds. -/
def jwtSign (email : JSValue) (secret : String) (now : Nat) : JwtToken :=
  { email := email, iat := now, exp := now + 43200, sig := secret }

/-- Modelled from the spec: token verification checks the signature
against the secret and that the expiry has not elapsed, returning the
decoded payload or failing. -/
def jwtVerify (t : JwtToken) (secret : String) (now : Nat) : Option JwtToken :=
  if t.sig == secret && now < t.exp then some t else none

/-- Outcome of the authenticate middleware: 403 with no token, 401 with a
token that fails verification, or the decoded payload bound to the
request for the handler. -/
inductive AuthResult where
  | forbidden
  | unauthorized
  | ok (user : JwtToken)
deriving DecidableEq

/-- Character-list prefix test, the semantics of startsWith. -/
def isPrefixOfList : List Char → List Char → Bool
  | [], _ => true
  | _ :: _, [] => false
  | a :: as, b :: bs => a == b && isPrefixOfList as bs

/-- Splitting at every space character keeping empty chunks, the
semantics of the split call in the middleware. -/
def splitSpaces : List Char → List (List Char)
  | [] => [[]]
  | c :: cs =>
    if c == ' ' then [] :: splitSpaces cs
    else
      match splitSpaces cs with
      | [] => [[c]]
      | g :: gs => (c :: g) :: gs

/-- The authenticate middleware (server.js line 63). An absent header, or
one that does not start with the Bearer prefix, answers 403. Otherwise the
second space-separated chunk is handed to the token library: tokenOf
stands for that external library's parsing of the bearer token string, and
a string it cannot parse makes verification throw, which the middleware
answers with 401, as it does for a parsed token failing verification. -/
def secondChunk (h : String) : String :=
  String.mk ((splitSpaces h.data).getD 1 [])

/-- The authenticate middleware itself; see the comment on secondChunk's
role above. -/
def authenticate (authHeader : Option String) (tokenOf : String → Option JwtToken)
    (secret : String) (now : Nat) : AuthResult :=
  match authHeader with
  | none => AuthResult.forbidden
  | some h =>
    if isPrefixOfList "Bearer ".data h.data then
      match tokenOf (secondChunk h) with
      | none => AuthResult.unauthorized
      | some t =>
        match jwtVerify t secret now with
        | none => AuthResult.unauthorized
        | some decoded => AuthResult.ok decoded
    else AuthResult.forbidden

/-- A protected route: the authenticate middleware runs first and a
failure response ends the request without ever running the handler; on
success the handler receives the decoded payload. -/
def runProtected {α : Type} (authHeader : Option String)
    (tokenOf : String → Option JwtToken) (secret : String) (now : Nat)
    (handler : JwtToken → α) : Option Nat × Option α :=
  match authenticate authHeader tokenOf secret now with
  | .forbidden => (some 403, none)
  | .unauthorized => (some 401, none)
  | .ok user => (none, some (handler user))

/-- POST register (server.js line 79), composed with its
validateRegistration middleware. Returns the status, the issued token if
any, and the users store after the request. The hashing primitive rejects
non-string input, which the catch branch answers with 500; on success the
new user is appended with the hashed password and a token is issued. -/
def register (b : RegisterBody) (secret : String) (now : Nat)
    (users : List User) : Nat × Option JwtToken × List User :=
  if validateRegistration b ≠ [] then (400, none, users)
  else if (users.find? (fun u => jsStrictEq u.email (jsGet b.email))).isSome then
    (400, none, users)
  else
    match jsGet b.password with
    | .str pw =>
      let u : User :=
        { name := jsGet b.name, email := jsGet b.email,
          password := .str (bcryptHash pw), phone := jsGet b.phone,
          age := jsGet b.age, address := jsGet b.address }
      (201, some (jwtSign (jsGet b.email) secret now), users ++ [u])
    | _ => (500, none, users)

/-- POST login (server.js line 96). The body's email and password are
arbitrary possibly-absent JSON values; a falsy value of either answers 400
before the store is consulted, a missing user or failed password
comparison answers 401, and a match issues a fresh token. -/
def login (email password : Option JSValue) (secret : String) (now : Nat)
    (users : List User) : Nat × Option JwtToken :=
  if !truthy (jsGet email) || !truthy (jsGet password) then (400, none)
  else
    match users.find? (fun u => jsStrictEq u.email (jsGet email)) with
    | none => (401, none)
    | some u =>
      if bcryptCompareJS (jsGet password) u.password then
        (200, some (jwtSign (jsGet email) secret now))
      else (401, none)

/-- The predicate of the get, update and delete single-task handlers: the
stored id loosely equals the id path parameter and the stored email
strictly equals the caller's. -/
def taskMatch (pid : String) (caller : JSValue) (t : Task) : Bool :=
  jsEq t.id (.str pid) && jsStrictEq t.email caller

/-- GET a task by id (server.js line 116): 404 when no task of the caller
matches the id loosely, otherwise 200 with the first match. -/
def getTaskRoute (pid : String) (caller : JSValue) (tasks : List Task) :
    Nat × Option Task :=
  match tasks.find? (taskMatch pid caller) with
  | none => (404, none)
  | some t => (200, some t)

/-- Shallow object spread of the update body over a stored task: every
property present in the body overwrites the stored one, including the id
and email keys. -/
def spreadTask (t : Task) (b : TaskBody) : Task :=
  { id := b.id.getD t.id
    email := b.email.getD t.email
    title := b.title.getD t.title
    content := b.content.getD t.content
    category := b.category.getD t.category
    priority := b.priority.getD t.priority
    tags := b.tags.getD t.tags
    status := b.status.getD t.status
    date := b.date.getD t.date }

/-- findIndex followed by in-place assignment of the spread record:
returns the updated record and the updated list when some record matches,
none otherwise. -/
def putUpdate (p : Task → Bool) (b : TaskBody) : List Task → Option (Task × List Task)
  | [] => none
  | t :: ts =>
    if p t then some (spreadTask t b, spreadTask t b :: ts)
    else (putUpdate p b ts).map (fun r => (r.1, t :: r.2))

/-- PUT a task by id (server.js line 143), composed with its validateTask
middleware. -/
def putTaskRoute (pid : String) (caller : JSValue) (b : TaskBody)
    (tasks : List Task) : Nat × Option Task × List Task :=
  if validateTask b ≠ [] then (400, none, tasks)
  else
    match putUpdate (taskMatch pid caller) b tasks with
    | none => (404, none, tasks)
    | some r => (200, some r.1, r.2)

/-- POST a task (server.js line 124), composed with its validateTask
middleware; nowMs is the millisecond clock reading used as the id and
nowIso the ISO rendering of the current date. -/
def postTaskRoute (b : TaskBody) (caller : JSValue) (nowMs : Int)
    (nowIso : String) (tasks : List Task) : Nat × Option Task × List Task :=
  if validateTask b ≠ [] then (400, none, tasks)
  else
    let newTask : Task :=
      { id := .num nowMs
        email := caller
        title := jsGet b.title
        content := jsGet b.content
        category := jsGet b.category
        priority := jsGet b.priority
        tags := jsGet b.tags
        status := if truthy (jsGet b.status) then jsGet b.status else .str "pending"
        date := if truthy (jsGet b.date) then jsGet b.date else .str nowIso }
    (200, some newTask, tasks ++ [newTask])

/-- DELETE a task by id (server.js line 152): keep the tasks that miss the
id loosely or belong to another user, and always answer the success
message. -/
def deleteTaskRoute (pid : String) (caller : JSValue) (tasks : List Task) :
    Nat × String × List Task :=
  (200, "Task deleted",
    tasks.filter (fun t => !jsEq t.id (.str pid) || !jsStrictEq t.email caller))

/-- GET the task list (server.js line 111). -/
def listTasksRoute (caller : JSValue) (tasks : List Task) : List Task :=
  tasks.filter (fun t => jsStrictEq t.email caller)

/-- DELETE all of the caller's tasks (server.js line 159). -/
def deleteAllTasksRoute (caller : JSValue) (tasks : List Task) :
    Nat × String × List Task :=
  (200, "All your tasks have been deleted.",
    tasks.filter (fun t => !jsStrictEq t.email caller))

/-- DELETE the account (server.js line 167): a falsy decoded email answers
400 and changes nothing; otherwise the caller's user records and task
records are filtered out of both stores. -/
def deleteAccountRoute (caller : JSValue) (users : List User)
    (tasks : List Task) : Nat × List User × List Task :=
  if !truthy caller then (400, users, tasks)
  else
    (200, users.filter (fun u => !jsStrictEq u.email caller),
      tasks.filter (fun t => !jsStrictEq t.email caller))

/-- The state of one collection file: missing, existing but empty, or
holding the JSON serialization of a record array. Serialization is
abstracted as the identity on the array, that is, parsing after
stringifying is taken as a round trip. -/
inductive FileState (α : Type) where
  | absent
  | emptyFile
  | stored (data : List α)
deriving DecidableEq

/-- writeData (server.js line 24): overwrite the file with the
serialization of the array. -/
def writeData {α : Type} (data : List α) : FileState α := FileState.stored data

/-- readData (server.js line 15): a missing file is initialized to the
empty array and persisted immediately; an existing empty file reads as the
empty array without a write; otherwise the parsed contents are returned.
The result pairs the returned array with the file state after the call. -/
def readData {α : Type} : FileState α → List α × FileState α
  | .absent => ([], writeData [])
  | .emptyFile => ([], .emptyFile)
  | .stored data => (data, .stored data)

/-! Helper lemmas about the embedded definitions. -/

theorem jsStrictEq_iff_eq (v w : JSValue) : jsStrictEq v w = true ↔ v = w := by
  cases v <;> cases w <;> simp [jsStrictEq]

theorem jsStrictEq_self (v : JSValue) : jsStrictEq v v = true := by
  cases v <;> simp [jsStrictEq]

theorem jsStrictEq_eq_false_of_ne {v w : JSValue} (h : v ≠ w) :
    jsStrictEq v w = false := by
  cases hvw : jsStrictEq v w
  · rfl
  · exact absurd ((jsStrictEq_iff_eq v w).mp hvw) h

theorem reqErr_eq_nil (f : Bool) (a m : String) : reqErr f a m = [] ↔ f = true := by
  cases f <;> simp [reqErr]

theorem validateRegistration_eq_nil (b : RegisterBody) :
    validateRegistration b = [] ↔
      truthy (jsGet b.name) = true ∧ truthy (jsGet b.email) = true ∧
      truthy (jsGet b.password) = true ∧ truthy (jsGet b.phone) = true ∧
      truthy (jsGet b.age) = true ∧ truthy (jsGet b.address) = true := by
  simp [validateRegistration, List.append_eq_nil, reqErr_eq_nil]

theorem validateTask_eq_nil (b : TaskBody) :
    validateTask b = [] ↔
      truthy (jsGet b.title) = true ∧ truthy (jsGet b.content) = true ∧
      truthy (jsGet b.category) = true ∧ truthy (jsGet b.priority) = true ∧
      truthy (jsGet b.tags) = true ∧ truthy (jsGet b.status) = true ∧
      truthy (jsGet b.date) = true := by
  simp [validateTask, List.append_eq_nil, reqErr_eq_nil]

theorem putUpdate_eq_none (p : Task → Bool) (b : TaskBody) (l : List Task)
    (h : ∀ t ∈ l, p t = false) : putUpdate p b l = none := by
  induction l with
  | nil => rfl
  | cons t ts ih =>
    simp [putUpdate, h t (List.mem_cons_self t ts),
      ih (fun u hu => h u (List.mem_cons_of_mem t hu))]

theorem putUpdate_found (p : Task → Bool) (b : TaskBody) (pre post : List Task)
    (t : Task) (hpre : ∀ u ∈ pre, p u = false) (ht : p t = true) :
    putUpdate p b (pre ++ t :: post) =
      some (spreadTask t b, pre ++ spreadTask t b :: post) := by
  induction pre with
  | nil => simp [putUpdate, ht]
  | cons u us ih =>
    simp [putUpdate, hpre u (List.mem_cons_self u us),
      ih (fun v hv => hpre v (List.mem_cons_of_mem u hv))]

theorem putUpdate_mem_of_mem (p : Task → Bool) (b : TaskBody) (l : List Task)
    (t : Task) (hmem : t ∈ l) (hp : p t = false) :
    ∀ r l2, putUpdate p b l = some (r, l2) → t ∈ l2 := by
  induction l with
  | nil => simp at hmem
  | cons u us ih =>
    intro r l2 h
    by_cases hu : p u = true
    · simp [putUpdate, hu] at h
      rcases h with ⟨h1, h2⟩
      subst h2
      rcases List.mem_cons.mp hmem with rfl | hmem2
      · rw [hu] at hp; cases hp
      · exact List.mem_cons_of_mem _ hmem2
    · rw [Bool.not_eq_true] at hu
      have hput : putUpdate p b (u :: us) =
          (putUpdate p b us).map (fun r => (r.1, u :: r.2)) := by
        simp [putUpdate, hu]
      rw [hput] at h
      cases hrec : putUpdate p b us with
      | none => rw [hrec] at h; cases h
      | some pr =>
        rw [hrec] at h
        simp only [Option.map_some'] at h
        rcases Prod.mk.injEq .. ▸ Option.some.inj h with ⟨h1, h2⟩
        subst h2
        rcases List.mem_cons.mp hmem with rfl | hmem2
        · exact List.mem_cons_self _ _
        · exact List.mem_cons_of_mem _ (ih hmem2 pr.1 pr.2 (by rw [hrec]))


/-! Concrete records used to instantiate the theorems. -/

/-- A stored user as the register handler would create it. -/
def sampleUser : User :=
  { name := .str "A", email := .str "a@x.com",
    password := .str (bcryptHash "p1"), phone := .str "1",
    age := .num 30, address := .str "addr" }

/-- A second stored user with a different email. -/
def otherUser : User :=
  { name := .str "B", email := .str "b@x.com",
    password := .str (bcryptHash "p2"), phone := .str "2",
    age := .num 25, address := .str "addr2" }

/-- A stored task owned by the first user. -/
def sampleTask : Task :=
  { id := .num 5, email := .str "a@x.com", title := .str "t",
    content := .str "c", category := .str "cat", priority := .str "hi",
    tags := .str "x", status := .str "pending", date := .str "2024-01-01" }

/-- A stored task owned by the second user. -/
def otherTask : Task :=
  { id := .num 6, email := .str "b@x.com", title := .str "t3",
    content := .str "c3", category := .str "cat3", priority := .str "mid",
    tags := .str "z", status := .str "open", date := .str "2024-03-03" }

/-- A task request body that passes validation. -/
def sampleBody : TaskBody :=
  { id := none, email := none, title := some (.str "t2"),
    content := some (.str "c2"), category := some (.str "cat2"),
    priority := some (.str "lo"), tags := some (.str "y"),
    status := some (.str "done"), date := some (.str "2024-02-02") }

/-! Claim theorems. -/

/-- C4: duplicate-email registration is rejected atomically. Whenever some
stored user carries the request body's email, the register route answers
400, issues no token, and returns the users store exactly as it was. -/
theorem c4_duplicate_registration_rejected (b : RegisterBody) (secret : String)
    (now : Nat) (users : List User) (u : User) (hu : u ∈ users)
    (he : jsStrictEq u.email (jsGet b.email) = true) :
    register b secret now users = (400, none, users) := by
  by_cases hv : validateRegistration b = []
  · have hfind : (users.find? (fun v => jsStrictEq v.email (jsGet b.email))).isSome :=
      List.find?_isSome.mpr ⟨u, hu, he⟩
    simp [register, hv, hfind]
  · simp [register, hv]

/-- Witness for C4 at a concrete store and request. -/
theorem c4_duplicate_registration_rejected_witness :
    register
      { name := some (.str "B"), email := some (.str "a@x.com"),
        password := some (.str "p2"), phone := some (.str "2"),
        age := some (.num 25), address := some (.str "addr2") }
      "sec" 0 [sampleUser] = (400, none, [sampleUser]) :=
  c4_duplicate_registration_rejected _ "sec" 0 [sampleUser] sampleUser
    (by decide) (by decide)

/-- C8: deleting an id that matches no task of the caller answers the
success message and leaves the task collection exactly as it was. -/
theorem c8_delete_missing_id_noop (pid : String) (caller : JSValue)
    (tasks : List Task)
    (h : ∀ t ∈ tasks, jsStrictEq t.email caller = true →
      jsEq t.id (.str pid) = false) :
    deleteTaskRoute pid caller tasks = (200, "Task deleted", tasks) := by
  have hk : tasks.filter
      (fun t => !jsEq t.id (.str pid) || !jsStrictEq t.email caller) = tasks := by
    apply List.filter_eq_self.mpr
    intro t ht
    cases hm : jsStrictEq t.email caller
    · simp [hm]
    · simp [h t ht hm]
  simp [deleteTaskRoute, hk]

/-- Witness for C8: the caller owns a task but under a different id, and
another user owns a task under the requested id. -/
theorem c8_delete_missing_id_noop_witness :
    deleteTaskRoute "6" (.str "a@x.com") [sampleTask, otherTask] =
      (200, "Task deleted", [sampleTask, otherTask]) :=
  c8_delete_missing_id_noop "6" (.str "a@x.com") [sampleTask, otherTask] (by decide)

/-- C9: loading a missing collection file persists the empty array
immediately (the write is the state component of the result) and returns
the empty array; loading an existing collection returns its parsed
contents, the whole array. -/
theorem c9_readData_initializes_and_parses {α : Type} (d : List α) :
    readData (FileState.absent : FileState α) = ([], writeData []) ∧
    writeData ([] : List α) = FileState.stored [] ∧
    readData (FileState.stored d) = (d, FileState.stored d) :=
  ⟨rfl, rfl, rfl⟩

theorem bnot_jsStrictEq_eq_decide (v w : JSValue) :
    (!jsStrictEq v w) = decide ¬(v = w) := by
  by_cases h : v = w
  · subst h; simp [jsStrictEq_self]
  · simp [jsStrictEq_eq_false_of_ne h, h]

theorem bnot_jsStrictEq_eq_true_iff (v w : JSValue) :
    ((!jsStrictEq v w) = true) ↔ v ≠ w := by
  rw [bnot_jsStrictEq_eq_decide]
  exact decide_eq_true_iff

/-- C5: deleting an account with a truthy authenticated email removes
exactly the user records and the task records carrying that email, keeping
every other record, in order and unchanged. -/
theorem c5_delete_account_exact (E : JSValue) (users : List User)
    (tasks : List Task) (hE : truthy E = true) :
    deleteAccountRoute E users tasks =
      (200, users.filter (fun u => decide ¬(u.email = E)),
        tasks.filter (fun t => decide ¬(t.email = E))) ∧
    (∀ u ∈ (deleteAccountRoute E users tasks).2.1, u ∈ users ∧ u.email ≠ E) ∧
    (∀ u ∈ users, u.email ≠ E → u ∈ (deleteAccountRoute E users tasks).2.1) ∧
    (∀ t ∈ (deleteAccountRoute E users tasks).2.2, t ∈ tasks ∧ t.email ≠ E) ∧
    (∀ t ∈ tasks, t.email ≠ E → t ∈ (deleteAccountRoute E users tasks).2.2) := by
  have hroute : deleteAccountRoute E users tasks =
      (200, users.filter (fun u => !jsStrictEq u.email E),
        tasks.filter (fun t => !jsStrictEq t.email E)) := by
    simp [deleteAccountRoute, hE]
  refine ⟨?_, ?_, ?_, ?_, ?_⟩
  · rw [hroute]
    have h1 : users.filter (fun u => !jsStrictEq u.email E)
        = users.filter (fun u => decide ¬(u.email = E)) :=
      List.filter_congr (fun u _ => bnot_jsStrictEq_eq_decide u.email E)
    have h2 : tasks.filter (fun t => !jsStrictEq t.email E)
        = tasks.filter (fun t => decide ¬(t.email = E)) :=
      List.filter_congr (fun t _ => bnot_jsStrictEq_eq_decide t.email E)
    rw [h1, h2]
  · intro u hu
    rw [hroute] at hu
    have := List.mem_filter.mp hu
    exact ⟨this.1, (bnot_jsStrictEq_eq_true_iff _ _).mp this.2⟩
  · intro u hu hne
    rw [hroute]
    exact List.mem_filter.mpr ⟨hu, (bnot_jsStrictEq_eq_true_iff _ _).mpr hne⟩
  · intro t ht
    rw [hroute] at ht
    have := List.mem_filter.mp ht
    exact ⟨this.1, (bnot_jsStrictEq_eq_true_iff _ _).mp this.2⟩
  · intro t ht hne
    rw [hroute]
    exact List.mem_filter.mpr ⟨ht, (bnot_jsStrictEq_eq_true_iff _ _).mpr hne⟩

/-- Witness for C5: deleting the first user's account removes that user
and that user's task while the second user's records survive unchanged. -/
theorem c5_delete_account_exact_witness :
    deleteAccountRoute (.str "a@x.com") [sampleUser, otherUser]
      [sampleTask, otherTask] = (200, [otherUser], [otherTask]) :=
  ((c5_delete_account_exact (.str "a@x.com") [sampleUser, otherUser]
    [sampleTask, otherTask] (by decide)).1).trans (by decide)

/-- A task update body that passes validation and additionally carries id
and email keys. -/
def c2Body : TaskBody :=
  { id := some (.num 99), email := some (.str "evil@x.com"),
    title := some (.str "t2"), content := some (.str "c2"),
    category := some (.str "cat2"), priority := some (.str "lo"),
    tags := some (.str "y"), status := some (.str "done"),
    date := some (.str "2024-02-02") }

/-- C2: a successful update replaces the stored task by the shallow spread
of the request body over it, so a body carrying an email or id key
overwrites the server-assigned owner email or id with the caller-supplied
value. -/
theorem c2_put_spread_overwrites (pid : String) (caller : JSValue)
    (b : TaskBody) (pre post : List Task) (t : Task)
    (hv : validateTask b = [])
    (hpre : ∀ u ∈ pre, taskMatch pid caller u = false)
    (ht : taskMatch pid caller t = true) :
    putTaskRoute pid caller b (pre ++ t :: post) =
      (200, some (spreadTask t b), pre ++ spreadTask t b :: post) ∧
    (∀ e, b.email = some e → (spreadTask t b).email = e) ∧
    (∀ v, b.id = some v → (spreadTask t b).id = v) := by
  refine ⟨?_, ?_, ?_⟩
  · simp [putTaskRoute, hv, putUpdate_found _ _ _ _ _ hpre ht]
  · intro e he
    simp [spreadTask, he]
  · intro v hv2
    simp [spreadTask, hv2]

/-- Witness for C2: the update body steals the task by rewriting its owner
email and id. -/
theorem c2_put_spread_overwrites_witness :
    putTaskRoute "5" (.str "a@x.com") c2Body [sampleTask] =
      (200, some (spreadTask sampleTask c2Body), [spreadTask sampleTask c2Body]) ∧
    (spreadTask sampleTask c2Body).email = .str "evil@x.com" ∧
    (spreadTask sampleTask c2Body).id = .num 99 := by
  have h := c2_put_spread_overwrites "5" (.str "a@x.com") c2Body [] []
    sampleTask (by decide) (by decide) (by decide)
  exact ⟨h.1, h.2.1 _ rfl, h.2.2 _ rfl⟩

/-- C1 counterexample: a delete request authenticated as user B on the id
of a task owned by user A answers the success status 200 with the
collection unchanged, never the not-found failure the claim requires of
all three verbs. -/
theorem c1_cross_user_counterexample :
    (.str "b@x.com" : JSValue) ≠ .str "a@x.com" ∧
    sampleTask.email = .str "a@x.com" ∧
    jsEq sampleTask.id (.str "5") = true ∧
    deleteTaskRoute "5" (.str "b@x.com") [sampleTask] =
      (200, "Task deleted", [sampleTask]) ∧
    (200 : Nat) ≠ 404 := by decide

/-- C1 amended: cross-user isolation. For a task owned by A and a caller B
distinct from A, the task is never the record a get returns, and it
survives update and delete untouched; when moreover no task owned by B
loosely matches the requested id, get answers 404, update with a validated
body answers 404 with the collection unchanged, and delete answers the
success message with the collection unchanged. -/
theorem c1_cross_user_isolation (pid : String) (A B : JSValue) (b : TaskBody)
    (tasks : List Task) (t : Task)
    (ht : t ∈ tasks) (hA : t.email = A) (hAB : B ≠ A) :
    (getTaskRoute pid B tasks).2 ≠ some t ∧
    t ∈ (putTaskRoute pid B b tasks).2.2 ∧
    t ∈ (deleteTaskRoute pid B tasks).2.2 ∧
    ((∀ u ∈ tasks, u.email = B → jsEq u.id (.str pid) = false) →
      getTaskRoute pid B tasks = (404, none) ∧
      (validateTask b = [] → putTaskRoute pid B b tasks = (404, none, tasks)) ∧
      deleteTaskRoute pid B tasks = (200, "Task deleted", tasks)) := by
  have hne : jsStrictEq t.email B = false := by
    apply jsStrictEq_eq_false_of_ne
    rw [hA]
    exact fun hh => hAB hh.symm
  have hmatch_t : taskMatch pid B t = false := by
    simp [taskMatch, hne]
  refine ⟨?_, ?_, ?_, ?_⟩
  · cases hf : tasks.find? (taskMatch pid B) with
    | none => simp [getTaskRoute, hf]
    | some u =>
      have hpu := List.find?_some hf
      simp only [getTaskRoute, hf]
      intro hut
      rw [Option.some.inj hut] at hpu
      rw [hmatch_t] at hpu
      cases hpu
  · by_cases hv : validateTask b = []
    · cases hres : putUpdate (taskMatch pid B) b tasks with
      | none => simpa [putTaskRoute, hv, hres] using ht
      | some r =>
        have hm := putUpdate_mem_of_mem (taskMatch pid B) b tasks t ht
          hmatch_t r.1 r.2 (by rw [hres])
        simpa [putTaskRoute, hv, hres] using hm
    · simpa [putTaskRoute, hv] using ht
  · simp only [deleteTaskRoute]
    exact List.mem_filter.mpr ⟨ht, by simp [hne]⟩
  · intro hB
    have hall : ∀ u ∈ tasks, taskMatch pid B u = false := by
      intro u hu
      cases hse : jsStrictEq u.email B with
      | false => simp [taskMatch, hse]
      | true =>
        have heq : u.email = B := (jsStrictEq_iff_eq _ _).mp hse
        simp [taskMatch, hB u hu heq]
    have hfind : tasks.find? (taskMatch pid B) = none :=
      List.find?_eq_none.mpr (fun u hu => by simp [hall u hu])
    refine ⟨by simp [getTaskRoute, hfind], ?_, ?_⟩
    · intro hv
      simp [putTaskRoute, hv, putUpdate_eq_none _ b tasks hall]
    · have hk : tasks.filter
          (fun u => !jsEq u.id (.str pid) || !jsStrictEq u.email B) = tasks := by
        apply List.filter_eq_self.mpr
        intro u hu
        have := hall u hu
        cases hse : jsStrictEq u.email B
        · simp [hse]
        · rw [taskMatch, hse, Bool.and_true] at this
          simp [this]
      simp [deleteTaskRoute, hk]

/-- Witness for C1 at a concrete store in which B owns no task at all. -/
theorem c1_cross_user_isolation_witness :
    getTaskRoute "5" (.str "b@x.com") [sampleTask] = (404, none) ∧
    putTaskRoute "5" (.str "b@x.com") sampleBody [sampleTask] =
      (404, none, [sampleTask]) ∧
    deleteTaskRoute "5" (.str "b@x.com") [sampleTask] =
      (200, "Task deleted", [sampleTask]) := by
  have h := (c1_cross_user_isolation "5" (.str "a@x.com") (.str "b@x.com")
    sampleBody [sampleTask] sampleTask (by decide) (by decide)
    (by decide)).2.2.2 (by decide)
  exact ⟨h.1, h.2.1 (by decide), h.2.2⟩

/-- C3 counterexample: the empty-string password does not match the stored
hash, yet login answers 400, not the 401 the claim requires of every
non-matching password. -/
theorem c3_falsy_password_counterexample :
    bcryptCompareJS (.str "") sampleUser.password = false ∧
    login (some (.str "a@x.com")) (some (.str "")) "sec" 0 [sampleUser] =
      (400, none) ∧
    (400 : Nat) ≠ 401 := by decide

/-- C3 amended: for a stored user that is the first record with its email,
logging in with the registration password answers 200 with a token that
verifies under the process secret to a payload whose email is the
registration email; a truthy password that does not match the stored hash
answers 401 with no token; a falsy password, such as the empty string,
answers 400 with no token. -/
theorem c3_login_roundtrip (users : List User) (u : User) (pw : String)
    (secret : String) (now : Nat)
    (hfind : users.find? (fun v => jsStrictEq v.email u.email) = some u)
    (hpw : u.password = .str (bcryptHash pw))
    (hemail : truthy u.email = true)
    (hpwt : truthy (.str pw) = true) :
    login (some u.email) (some (.str pw)) secret now users =
      (200, some (jwtSign u.email secret now)) ∧
    jwtVerify (jwtSign u.email secret now) secret now =
      some (jwtSign u.email secret now) ∧
    (jwtSign u.email secret now).email = u.email ∧
    (∀ q, truthy q = true → bcryptCompareJS q u.password = false →
      login (some u.email) (some q) secret now users = (401, none)) ∧
    (∀ q, truthy q = false →
      login (some u.email) (some q) secret now users = (400, none)) := by
  refine ⟨?_, ?_, rfl, ?_, ?_⟩
  · have hcmp : bcryptCompareJS (.str pw) u.password = true := by
      rw [hpw]
      simp [bcryptCompareJS, bcryptCompare]
    simp [login, jsGet, hemail, hpwt, hfind, hcmp]
  · have hlt : now < now + 43200 := by omega
    simp [jwtVerify, jwtSign, hlt]
  · intro q hq hcmp
    simp [login, jsGet, hemail, hq, hfind, hcmp]
  · intro q hq
    simp [login, jsGet, hemail, hq]

/-- Witness for C3 at a concrete store: the registration password logs in
and the token round-trips; a wrong truthy password is answered with 401. -/
theorem c3_login_roundtrip_witness :
    login (some (.str "a@x.com")) (some (.str "p1")) "sec" 0 [sampleUser] =
      (200, some (jwtSign (.str "a@x.com") "sec" 0)) ∧
    jwtVerify (jwtSign (.str "a@x.com") "sec" 0) "sec" 0 =
      some (jwtSign (.str "a@x.com") "sec" 0) ∧
    login (some (.str "a@x.com")) (some (.str "wrong")) "sec" 0 [sampleUser] =
      (401, none) := by
  have h := c3_login_roundtrip [sampleUser] sampleUser "p1" "sec" 0
    (by decide) rfl rfl rfl
  exact ⟨h.1, h.2.1, h.2.2.2.1 (.str "wrong") rfl (by decide)⟩

/-- C6: the access gate. A missing header, or one that does not start with
the Bearer prefix, answers 403 without running the handler; a bearer token
the token library cannot parse, or that fails signature or expiry
verification, answers 401 without running the handler; otherwise the
handler runs on the decoded payload, which carries the bound email. -/
theorem c6_access_gate {α : Type} (authHeader : Option String)
    (tokenOf : String → Option JwtToken) (secret : String) (now : Nat)
    (handler : JwtToken → α) :
    (authHeader = none →
      runProtected authHeader tokenOf secret now handler = (some 403, none)) ∧
    (∀ h, authHeader = some h → isPrefixOfList "Bearer ".data h.data = false →
      runProtected authHeader tokenOf secret now handler = (some 403, none)) ∧
    (∀ h, authHeader = some h → isPrefixOfList "Bearer ".data h.data = true →
      ((tokenOf (secondChunk h)).bind
          (fun t => jwtVerify t secret now) = none →
        runProtected authHeader tokenOf secret now handler = (some 401, none)) ∧
      (∀ d, (tokenOf (secondChunk h)).bind
          (fun t => jwtVerify t secret now) = some d →
        runProtected authHeader tokenOf secret now handler =
          (none, some (handler d)))) := by
  refine ⟨?_, ?_, ?_⟩
  · intro hn
    subst hn
    rfl
  · intro h hh hpre
    subst hh
    simp [runProtected, authenticate, hpre]
  · intro h hh hpre
    subst hh
    constructor
    · intro hver
      cases htok : tokenOf (secondChunk h) with
      | none => simp [runProtected, authenticate, hpre, htok]
      | some t =>
        rw [htok] at hver
        simp at hver
        simp [runProtected, authenticate, hpre, htok, hver]
    · intro d hver
      cases htok : tokenOf (secondChunk h) with
      | none => rw [htok] at hver; cases hver
      | some t =>
        rw [htok] at hver
        simp at hver
        simp [runProtected, authenticate, hpre, htok, hver]

/-- A concrete token decoder for instantiating the gate theorem: it parses
exactly one token string. -/
def sampleTokenOf : String → Option JwtToken :=
  fun s =>
    if s = "tok" then
      some { email := .str "a@x.com", iat := 0, exp := 43200, sig := "sec" }
    else none

/-- Witness for C6 covering all three gate outcomes: missing header, wrong
scheme, unparseable token, expired token, and a verified token reaching
the handler with its email. -/
theorem c6_access_gate_witness :
    runProtected none sampleTokenOf "sec" 0 (fun t => t.email) =
      (some 403, none) ∧
    runProtected (some "Token tok") sampleTokenOf "sec" 0 (fun t => t.email) =
      (some 403, none) ∧
    runProtected (some "Bearer bad") sampleTokenOf "sec" 0 (fun t => t.email) =
      (some 401, none) ∧
    runProtected (some "Bearer tok") sampleTokenOf "sec" 50000 (fun t => t.email) =
      (some 401, none) ∧
    runProtected (some "Bearer tok") sampleTokenOf "sec" 0 (fun t => t.email) =
      (none, some (.str "a@x.com")) := by
  refine ⟨?_, ?_, ?_, ?_, ?_⟩
  · exact (c6_access_gate none sampleTokenOf "sec" 0 (fun t => t.email)).1 rfl
  · exact (c6_access_gate (some "Token tok") sampleTokenOf "sec" 0
      (fun t => t.email)).2.1 "Token tok" rfl (by decide)
  · exact ((c6_access_gate (some "Bearer bad") sampleTokenOf "sec" 0
      (fun t => t.email)).2.2 "Bearer bad" rfl (by decide)).1 (by decide)
  · exact ((c6_access_gate (some "Bearer tok") sampleTokenOf "sec" 50000
      (fun t => t.email)).2.2 "Bearer tok" rfl (by decide)).1 (by decide)
  · exact ((c6_access_gate (some "Bearer tok") sampleTokenOf "sec" 0
      (fun t => t.email)).2.2 "Bearer tok" rfl (by decide)).2
      { email := .str "a@x.com", iat := 0, exp := 43200, sig := "sec" } (by decide)

/-- The task the create handler builds from sampleBody when the clock
reads 5. -/
def c7New : Task :=
  { id := .num 5, email := .str "a@x.com", title := .str "t2",
    content := .str "c2", category := .str "cat2", priority := .str "lo",
    tags := .str "y", status := .str "done", date := .str "2024-02-02" }

/-- C7 counterexample: when a stored task of the caller already carries the
id the clock assigns to the new task, fetching by the returned id yields
the old task, which differs from the created one on its supplied fields. -/
theorem c7_roundtrip_counterexample :
    validateTask sampleBody = [] ∧
    postTaskRoute sampleBody (.str "a@x.com") 5 "2024-06-01" [sampleTask] =
      (200, some c7New, [sampleTask, c7New]) ∧
    getTaskRoute "5" (.str "a@x.com") [sampleTask, c7New] =
      (200, some sampleTask) ∧
    sampleTask ≠ c7New ∧ sampleTask.title ≠ c7New.title := by decide

/-- C7 amended: create followed by get round-trips, provided no task of the
caller already stored loosely matches the creation timestamp used as the
id. The created task equals the input on all supplied fields plus the
server-assigned id and the caller email; the status and date defaults
apply when those fields are omitted, which the validator in fact never
lets through. -/
theorem c7_create_get_roundtrip (b : TaskBody) (caller : JSValue)
    (nowMs : Int) (nowIso : String) (tasks : List Task) (pid : String)
    (hv : validateTask b = [])
    (hfresh : ∀ u ∈ tasks, jsStrictEq u.email caller = true →
      jsEq u.id (.str pid) = false)
    (hpid : jsEq (.num nowMs) (.str pid) = true) :
    ∃ newTask,
      postTaskRoute b caller nowMs nowIso tasks =
        (200, some newTask, tasks ++ [newTask]) ∧
      getTaskRoute pid caller (tasks ++ [newTask]) = (200, some newTask) ∧
      newTask.id = .num nowMs ∧ newTask.email = caller ∧
      newTask.title = jsGet b.title ∧ newTask.content = jsGet b.content ∧
      newTask.category = jsGet b.category ∧
      newTask.priority = jsGet b.priority ∧ newTask.tags = jsGet b.tags ∧
      newTask.status = jsGet b.status ∧ newTask.date = jsGet b.date ∧
      (b.status = none → newTask.status = .str "pending") ∧
      (b.date = none → newTask.date = .str nowIso) := by
  obtain ⟨ht1, ht2, ht3, ht4, ht5, hst, hdt⟩ := (validateTask_eq_nil b).mp hv
  refine ⟨{ id := .num nowMs, email := caller, title := jsGet b.title,
            content := jsGet b.content, category := jsGet b.category,
            priority := jsGet b.priority, tags := jsGet b.tags,
            status := jsGet b.status, date := jsGet b.date },
    ?_, ?_, rfl, rfl, rfl, rfl, rfl, rfl, rfl, rfl, rfl, ?_, ?_⟩
  · simp [postTaskRoute, hv, hst, hdt]
  · have hnone : tasks.find? (taskMatch pid caller) = none := by
      apply List.find?_eq_none.mpr
      intro u hu
      cases hse : jsStrictEq u.email caller with
      | false => simp [taskMatch, hse]
      | true => simp [taskMatch, hse, hfresh u hu hse]
    have hnew : taskMatch pid caller
        { id := .num nowMs, email := caller, title := jsGet b.title,
          content := jsGet b.content, category := jsGet b.category,
          priority := jsGet b.priority, tags := jsGet b.tags,
          status := jsGet b.status, date := jsGet b.date } = true := by
      simp [taskMatch, hpid, jsStrictEq_self]
    simp [getTaskRoute, List.find?_append, hnone, List.find?_cons, hnew]
  · intro hnone2
    rw [hnone2] at hst
    simp [jsGet, truthy] at hst
  · intro hnone2
    rw [hnone2] at hdt
    simp [jsGet, truthy] at hdt

/-- Witness for C7 on an empty store: the created task is exactly what the
subsequent fetch by its id returns. -/
theorem c7_create_get_roundtrip_witness :
    getTaskRoute "7" (.str "a@x.com")
      (postTaskRoute sampleBody (.str "a@x.com") 7 "iso" []).2.2 =
      (200, (postTaskRoute sampleBody (.str "a@x.com") 7 "iso" []).2.1) := by
  obtain ⟨nt, h1, h2, _⟩ := c7_create_get_roundtrip sampleBody (.str "a@x.com")
    7 "iso" [] "7" (by decide) (by decide) (by decide)
  rw [h1]
  exact h2

theorem register_status_400_of_errors {bR : RegisterBody}
    (h : validateRegistration bR ≠ []) (secret : String) (now : Nat)
    (users : List User) : (register bR secret now users).1 = 400 := by
  simp [register, h]

theorem postTask_status_400_of_errors {bT : TaskBody}
    (h : validateTask bT ≠ []) (caller : JSValue) (nowMs : Int)
    (nowIso : String) (tasks : List Task) :
    (postTaskRoute bT caller nowMs nowIso tasks).1 = 400 := by
  simp [postTaskRoute, h]

/-- C10: the presence checks use truthiness, so a required field that is
present but falsy is rejected exactly like an absent one: a zero age or an
empty-string required field draws a 400 response carrying that field's
message, and validation of a falsy-present field is literally the same as
of the absent field. -/
theorem c10_falsy_fields_rejected (bR : RegisterBody) (bT : TaskBody)
    (secret : String) (now : Nat) (users : List User) (caller : JSValue)
    (nowMs : Int) (nowIso : String) (tasks : List Task) :
    (bR.age = some (.num 0) →
      ("age", "Age is required") ∈ validateRegistration bR ∧
      (register bR secret now users).1 = 400) ∧
    (bR.name = some (.str "") →
      ("name", "Name is required") ∈ validateRegistration bR ∧
      (register bR secret now users).1 = 400) ∧
    (bR.email = some (.str "") →
      ("email", "Email is required") ∈ validateRegistration bR ∧
      (register bR secret now users).1 = 400) ∧
    (bR.password = some (.str "") →
      ("password", "Password is required") ∈ validateRegistration bR ∧
      (register bR secret now users).1 = 400) ∧
    (bR.phone = some (.str "") →
      ("phone", "Phone number is required") ∈ validateRegistration bR ∧
      (register bR secret now users).1 = 400) ∧
    (bR.age = some (.str "") →
      ("age", "Age is required") ∈ validateRegistration bR ∧
      (register bR secret now users).1 = 400) ∧
    (bR.address = some (.str "") →
      ("address", "Address is required") ∈ validateRegistration bR ∧
      (register bR secret now users).1 = 400) ∧
    (bT.title = some (.str "") →
      ("title", "Title is required") ∈ validateTask bT ∧
      (postTaskRoute bT caller nowMs nowIso tasks).1 = 400) ∧
    (bT.content = some (.str "") →
      ("content", "Content is required") ∈ validateTask bT ∧
      (postTaskRoute bT caller nowMs nowIso tasks).1 = 400) ∧
    (bT.category = some (.str "") →
      ("category", "Category is required") ∈ validateTask bT ∧
      (postTaskRoute bT caller nowMs nowIso tasks).1 = 400) ∧
    (bT.priority = some (.str "") →
      ("priority", "Priority is required") ∈ validateTask bT ∧
      (postTaskRoute bT caller nowMs nowIso tasks).1 = 400) ∧
    (bT.tags = some (.str "") →
      ("tags", "Tags are required") ∈ validateTask bT ∧
      (postTaskRoute bT caller nowMs nowIso tasks).1 = 400) ∧
    (bT.status = some (.str "") →
      ("status", "Status is required") ∈ validateTask bT ∧
      (postTaskRoute bT caller nowMs nowIso tasks).1 = 400) ∧
    (bT.date = some (.str "") →
      ("date", "Date is required") ∈ validateTask bT ∧
      (postTaskRoute bT caller nowMs nowIso tasks).1 = 400) ∧
    validateRegistration { bR with age := some (.num 0) } =
      validateRegistration { bR with age := none } ∧
    validateTask { bT with title := some (.str "") } =
      validateTask { bT with title := none } := by
  refine ⟨?_, ?_, ?_, ?_, ?_, ?_, ?_, ?_, ?_, ?_, ?_, ?_, ?_, ?_, rfl, rfl⟩
  all_goals intro hfield
  case refine_1 =>
    have hm : ("age", "Age is required") ∈ validateRegistration bR := by
      simp [validateRegistration, reqErr, hfield, jsGet, truthy]
    exact ⟨hm, register_status_400_of_errors (List.ne_nil_of_mem hm) secret now users⟩
  case refine_2 =>
    have hm : ("name", "Name is required") ∈ validateRegistration bR := by
      simp [validateRegistration, reqErr, hfield, jsGet, truthy]
    exact ⟨hm, register_status_400_of_errors (List.ne_nil_of_mem hm) secret now users⟩
  case refine_3 =>
    have hm : ("email", "Email is required") ∈ validateRegistration bR := by
      simp [validateRegistration, reqErr, hfield, jsGet, truthy]
    exact ⟨hm, register_status_400_of_errors (List.ne_nil_of_mem hm) secret now users⟩
  case refine_4 =>
    have hm : ("password", "Password is required") ∈ validateRegistration bR := by
      simp [validateRegistration, reqErr, hfield, jsGet, truthy]
    exact ⟨hm, register_status_400_of_errors (List.ne_nil_of_mem hm) secret now users⟩
  case refine_5 =>
    have hm : ("phone", "Phone number is required") ∈ validateRegistration bR := by
      simp [validateRegistration, reqErr, hfield, jsGet, truthy]
    exact ⟨hm, register_status_400_of_errors (List.ne_nil_of_mem hm) secret now users⟩
  case refine_6 =>
    have hm : ("age", "Age is required") ∈ validateRegistration bR := by
      simp [validateRegistration, reqErr, hfield, jsGet, truthy]
    exact ⟨hm, register_status_400_of_errors (List.ne_nil_of_mem hm) secret now users⟩
  case refine_7 =>
    have hm : ("address", "Address is required") ∈ validateRegistration bR := by
      simp [validateRegistration, reqErr, hfield, jsGet, truthy]
    exact ⟨hm, register_status_400_of_errors (List.ne_nil_of_mem hm) secret now users⟩
  case refine_8 =>
    have hm : ("title", "Title is required") ∈ validateTask bT := by
      simp [validateTask, reqErr, hfield, jsGet, truthy]
    exact ⟨hm, postTask_status_400_of_errors (List.ne_nil_of_mem hm) caller nowMs nowIso tasks⟩
  case refine_9 =>
    have hm : ("content", "Content is required") ∈ validateTask bT := by
      simp [validateTask, reqErr, hfield, jsGet, truthy]
    exact ⟨hm, postTask_status_400_of_errors (List.ne_nil_of_mem hm) caller nowMs nowIso tasks⟩
  case refine_10 =>
    have hm : ("category", "Category is required") ∈ validateTask bT := by
      simp [validateTask, reqErr, hfield, jsGet, truthy]
    exact ⟨hm, postTask_status_400_of_errors (List.ne_nil_of_mem hm) caller nowMs nowIso tasks⟩
  case refine_11 =>
    have hm : ("priority", "Priority is required") ∈ validateTask bT := by
      simp [validateTask, reqErr, hfield, jsGet, truthy]
    exact ⟨hm, postTask_status_400_of_errors (List.ne_nil_of_mem hm) caller nowMs nowIso tasks⟩
  case refine_12 =>
    have hm : ("tags", "Tags are required") ∈ validateTask bT := by
      simp [validateTask, reqErr, hfield, jsGet, truthy]
    exact ⟨hm, postTask_status_400_of_errors (List.ne_nil_of_mem hm) caller nowMs nowIso tasks⟩
  case refine_13 =>
    have hm : ("status", "Status is required") ∈ validateTask bT := by
      simp [validateTask, reqErr, hfield, jsGet, truthy]
    exact ⟨hm, postTask_status_400_of_errors (List.ne_nil_of_mem hm) caller nowMs nowIso tasks⟩
  case refine_14 =>
    have hm : ("date", "Date is required") ∈ validateTask bT := by
      simp [validateTask, reqErr, hfield, jsGet, truthy]
    exact ⟨hm, postTask_status_400_of_errors (List.ne_nil_of_mem hm) caller nowMs nowIso tasks⟩

/-- A registration body whose required fields are all present but falsy. -/
def c10RegBody : RegisterBody :=
  { name := some (.str ""), email := some (.str ""),
    password := some (.str ""), phone := some (.str ""),
    age := some (.num 0), address := some (.str "") }

/-- A task body whose required fields are all present but falsy. -/
def c10TaskBody : TaskBody :=
  { id := none, email := none, title := some (.str ""),
    content := some (.str ""), category := some (.str ""),
    priority := some (.str ""), tags := some (.str ""),
    status := some (.str ""), date := some (.str "") }

/-- Witness for C10: a zero age and an empty-string title are rejected
with 400 and their field messages. -/
theorem c10_falsy_fields_rejected_witness :
    ("age", "Age is required") ∈ validateRegistration c10RegBody ∧
    (register c10RegBody "sec" 0 []).1 = 400 ∧
    ("title", "Title is required") ∈ validateTask c10TaskBody ∧
    (postTaskRoute c10TaskBody (.str "a@x.com") 5 "iso" []).1 = 400 := by
  have h := c10_falsy_fields_rejected c10RegBody c10TaskBody "sec" 0 []
    (.str "a@x.com") 5 "iso" []
  have h1 := h.1 rfl
  have h8 := h.2.2.2.2.2.2.2.1 rfl
  exact ⟨h1.1, h1.2, h8.1, h8.2⟩

end ToDoApp
